import Mathlib

/-!
Shallow embedding of the audio-playback pipeline of the `lap` repository.

Embedded source files:
* `src/lib/storage/audio-storage.ts` — cache-key derivation and the S3 helpers
  (`generateCacheKey`, `checkAudioExists`, `uploadAudio`, `getAudioUrl`);
* `src/app/actions/text-to-speech.ts` — the `generateSpeech` server action with
  its module-level in-memory fallback cache;
* `src/components/table/use-audio-playback.ts` — the playback controller hook
  (`playAudio`, `stopAudio`, the preload effect) modelled as a small-step state
  machine over the hook's refs and state, with one step per synchronous run of
  JavaScript code between suspension points.

External collaborators (the S3 client, the Speechify client, the MD5 digest of
node's `crypto`, the browser's audio element) are modelled as parameters: a
`World` records the outcome of each remote call, and the digest is an arbitrary
function `md5hex : String → String`.  Effects on those collaborators are made
observable by an event trace (`Event`).
-/

namespace Lap

/-- The (relevant) environment configuration of the app: `SPEECHIFY_VOICE`,
`S3_BUCKET_NAME`, `S3_PUBLIC_URL`. -/
structure Config where
  voiceId : String
  bucketName : String
  publicUrl : String

/-- Errors thrown by the Speechify client: `SpeechifyError` carries a status
code and message; anything else is an unexpected error. Mirrors the
`err instanceof SpeechifyError` test in `generateSpeech`'s catch clause. -/
inductive GatewayError where
  | speechify (statusCode : Nat) (message : String)
  | unexpected (message : String)
deriving Repr, DecidableEq

/-- Outcomes of the remote calls issued by the embedded code.  For `head`,
`.ok ()` models `HeadObjectCommand` succeeding (the object is present and the
store reachable); `.error` models both an absent object and a transport/auth
failure — the code cannot tell these apart, `checkAudioExists` catches every
error and returns `false`.  `speech` is the Speechify `tts.audio.speech` call,
returning the base64 `audioData` on success. -/
structure World where
  head : String → Except String Unit
  put : String → Except String Unit
  speech : String → String → Except GatewayError String

/-- Observable effects on the external collaborators.  The source issues only
HEAD-equivalent checks, PUT-equivalent uploads and gateway calls; `getFetch`
(a GET of audio bytes) is in the vocabulary so that "no byte fetch happens"
is statable, and no embedded operation ever emits it. -/
inductive Event where
  | headCheck (key : String)
  | getFetch (key : String)
  | putUpload (key : String)
  | gatewayCall (text voice : String)
deriving Repr, DecidableEq

/-- Result object of the `generateSpeech` server action:
`{ success; audioUrl?; audioData?; error? }`. -/
structure SpeechResult where
  success : Bool
  audioUrl : Option String := none
  audioData : Option String := none
  error : Option String := none
deriving Repr, DecidableEq

/-- JavaScript `String.prototype.toLowerCase`, modelled character-wise. -/
def jsToLowerCase (s : String) : String :=
  ⟨s.data.map Char.toLower⟩

/-- JavaScript `String.prototype.trim`: strip leading and trailing
whitespace. -/
def jsTrim (s : String) : String :=
  ⟨((s.data.dropWhile Char.isWhitespace).reverse.dropWhile Char.isWhitespace).reverse⟩

/-- `generateCacheKey` from `src/lib/storage/audio-storage.ts`: normalize the
text (trim + lowercase, punctuation preserved), MD5-hash it, and return the key
`{voiceId}/{hash}.mp3`.  The digest `md5hex` (node `crypto`) is an external
collaborator passed as a parameter. -/
def generateCacheKey (md5hex : String → String) (text voiceId : String) : String :=
  let normalizedText := jsToLowerCase (jsTrim text)
  let hash := md5hex normalizedText
  voiceId ++ "/" ++ hash ++ ".mp3"

/-- `checkAudioExists`: sends a `HeadObjectCommand` and returns `true` on
success; its catch-all turns every error (missing object or transport failure)
into `false`, so it never throws. -/
def checkAudioExists (w : World) (key : String) : Bool :=
  match w.head key with
  | .ok _ => true
  | .error _ => false

/-- `getAudioUrl`: pure composition of the public base URL with the key. -/
def getAudioUrl (cfg : Config) (key : String) : String :=
  cfg.publicUrl ++ "/" ++ key

/-- `uploadAudio`: decodes the base64 payload and sends a `PutObjectCommand`;
on success returns `getAudioUrl key`, otherwise the S3 error propagates to the
caller.  The payload does not influence the modelled outcome (the `World`
keys the put outcome by object key alone). -/
def uploadAudio (w : World) (cfg : Config) (key audioBase64 : String) : Except String String :=
  match w.put key with
  | .ok _ => .ok (getAudioUrl cfg key)
  | .error e => .error e

/-- The module-level `memoryCache : Map<string, string>` of
`src/app/actions/text-to-speech.ts`, as an association list from raw text to
base64 audio data. -/
def MemCache : Type := List (String × String)

/-- `Map.get`-style lookup on the memory cache. -/
def memGet (mc : MemCache) (k : String) : Option String :=
  List.lookup k mc

/-- `Map.set`: replaces any existing binding for `k`. -/
def memSet (mc : MemCache) (k v : String) : MemCache :=
  (k, v) :: List.eraseP (fun p => p.1 == k) mc

/-- The `try` block of `generateSpeech` (`src/app/actions/text-to-speech.ts`
lines 33–81).  S3 errors are handled locally (existence-check failure falls
through; upload failure populates the memory cache); only the Speechify call's
error escapes the block, as the `.error` of the returned `Except`.  The value
also carries the updated memory cache and the trace of external calls. -/
def generateSpeechTry (md5hex : String → String) (cfg : Config) (w : World)
    (memoryCache : MemCache) (text : String) :
    Except GatewayError SpeechResult × MemCache × List Event :=
  let cacheKey := generateCacheKey md5hex text cfg.voiceId
  if checkAudioExists w cacheKey then
    (.ok { success := true, audioUrl := some (getAudioUrl cfg cacheKey) },
      memoryCache, [.headCheck cacheKey])
  else
    match memGet memoryCache text with
    | some cached =>
        (.ok { success := true, audioData := some cached },
          memoryCache, [.headCheck cacheKey])
    | none =>
      match w.speech text cfg.voiceId with
      | .error e =>
          (.error e, memoryCache,
            [.headCheck cacheKey, .gatewayCall text cfg.voiceId])
      | .ok audioData =>
        match uploadAudio w cfg cacheKey audioData with
        | .ok audioUrl =>
            (.ok { success := true, audioUrl := some audioUrl },
              memoryCache,
              [.headCheck cacheKey, .gatewayCall text cfg.voiceId, .putUpload cacheKey])
        | .error _ =>
            (.ok { success := true, audioData := some audioData },
              memSet memoryCache text audioData,
              [.headCheck cacheKey, .gatewayCall text cfg.voiceId, .putUpload cacheKey])

/-- `generateSpeech`: the `try` block wrapped in the catch clause that converts
a `SpeechifyError` into `{ success: false, error: "Speech generation failed:
..." }` and any other throw into `{ success: false, error: "An unexpected
error occurred" }`.  Total: every input yields a `SpeechResult`, never an
exception. -/
def generateSpeech (md5hex : String → String) (cfg : Config) (w : World)
    (memoryCache : MemCache) (text : String) :
    SpeechResult × MemCache × List Event :=
  match generateSpeechTry md5hex cfg w memoryCache text with
  | (.ok r, mc, ev) => (r, mc, ev)
  | (.error (.speechify _ message), mc, ev) =>
      ({ success := false, error := some ("Speech generation failed: " ++ message) }, mc, ev)
  | (.error (.unexpected _), mc, ev) =>
      ({ success := false, error := some "An unexpected error occurred" }, mc, ev)

/-!
The playback controller of `src/components/table/use-audio-playback.ts`,
as a small-step machine.  One step corresponds to one synchronous run of
JavaScript between suspension points:

* `doPlay` — the synchronous prefix of `playAudio` (lines 70–92, up to
  `await generateSpeech`): set `isLoading`, pause/null the current audio
  element, revoke the tracked object URL, abort the previous
  `AbortController` and install a fresh one, then suspend.  The abort has no
  modelled effect because the source never passes the signal to
  `generateSpeech` nor reads `signal.aborted`.  (The hook derives the text
  from the selection cursor and mode; the model takes the chosen text
  directly — the `selectedSentence === null` early return therefore has no
  counterpart.)
* `doResolve` — the continuation after `await generateSpeech` returns
  (lines 94–140), distinguished by the shape of the result; on success it
  creates the audio element, starts it, and the `onplay` handler runs
  (`isLoading := false; isPlaying := true; abortControllerRef := null`).
* `doStop` — `stopAudio`.
* `doEnded` — the `onended` handler of a still-playing element.

Audio elements are numbered; `playing` lists the elements currently emitting
sound together with the text each one speaks.  `pending` lists the in-flight
`generateSpeech` continuations (id, text).
-/

/-- Shape of a settled `generateSpeech` result as consumed by `playAudio`:
`failure` is `result.success === false`; `url` / `dataB64` are success with
`audioUrl` / `audioData`; `neither` is success with neither field (line 112). -/
inductive ResolveOutcome where
  | failure
  | url
  | dataB64
  | neither
deriving Repr, DecidableEq

/-- State of the hook: the two `useState` booleans, the four refs, the
in-flight continuations, and the set of audio elements currently playing. -/
structure CState where
  isLoading : Bool := false
  isPlaying : Bool := false
  audioRef : Option (Nat × String) := none
  currentUrl : Option Nat := none
  abortRef : Option Nat := none
  pending : List (Nat × String) := []
  playing : List (Nat × String) := []
  nextAudio : Nat := 0
  nextCont : Nat := 0
deriving Repr, DecidableEq

/-- The hook's initial state. -/
def initState : CState := {}

/-- `audioRef.current.pause(); audioRef.current = null` — the element stops
emitting sound (pausing fires no `onended`), the ref is cleared. -/
def pauseCurrent (s : CState) : CState :=
  match s.audioRef with
  | some (a, _) => { s with playing := s.playing.filter (fun p => p.1 != a), audioRef := none }
  | none => s

/-- Synchronous prefix of `playAudio` for the chosen text (lines 70–92). -/
def doPlay (s : CState) (text : String) : CState :=
  let s1 := { s with isLoading := true }
  let s2 := pauseCurrent s1
  let s3 := { s2 with currentUrl := none }
  { s3 with abortRef := some s3.nextCont,
            pending := s3.pending ++ [(s3.nextCont, text)],
            nextCont := s3.nextCont + 1 }

/-- Drop continuation `c` from the pending list (it has run). -/
def removePending (s : CState) (c : Nat) : CState :=
  { s with pending := s.pending.filter (fun p => p.1 != c) }

/-- Continuation of `playAudio` after `await generateSpeech(text)` settles
with outcome `out` (lines 94–140).  Note what the source does *not* do here:
it neither checks the abort signal nor pauses whatever audio element may have
started playing since the prefix ran. -/
def doResolve (s : CState) (c : Nat) (out : ResolveOutcome) : CState :=
  match List.lookup c s.pending with
  | none => s
  | some text =>
    let s1 := removePending s c
    match out with
    | .failure => { s1 with isLoading := false, abortRef := none }
    | .neither => { s1 with isLoading := false, abortRef := none }
    | .url =>
        let a := s1.nextAudio
        { s1 with audioRef := some (a, text),
                  playing := s1.playing ++ [(a, text)],
                  isLoading := false, isPlaying := true,
                  abortRef := none, nextAudio := a + 1 }
    | .dataB64 =>
        let a := s1.nextAudio
        { s1 with audioRef := some (a, text),
                  currentUrl := some a,
                  playing := s1.playing ++ [(a, text)],
                  isLoading := false, isPlaying := true,
                  abortRef := none, nextAudio := a + 1 }

/-- `stopAudio` (lines 37–52): pause the current element, revoke the object
URL, abort the controller, reset both booleans. -/
def doStop (s : CState) : CState :=
  let s1 := pauseCurrent s
  { s1 with currentUrl := none, abortRef := none, isLoading := false, isPlaying := false }

/-- `onended` of element `a`, if it is still playing: the element leaves the
playing set and the handler sets `isPlaying := false` (lines 129–131). -/
def doEnded (s : CState) (a : Nat) : CState :=
  if (s.playing.map Prod.fst).contains a then
    { s with playing := s.playing.filter (fun p => p.1 != a), isPlaying := false }
  else s

/-!
The preload effect (`use-audio-playback.ts` lines 156–184): on a selection
change, walk offsets 1..PRELOAD_COUNT, break past the end of the list, skip
indices already in `preloadedRef`, otherwise add the index to the set and fire
`generateSpeech(sentenceText)` with only a `.catch` attached.
-/

def PRELOAD_COUNT : Nat := 3

/-- The `for` loop body of `preloadSentences`: returns the updated ledger and
the list of sentence indices for which a warm-up call was fired. -/
def preloadLoop (selected numSentences : Nat) :
    List Nat → List Nat → List Nat × List Nat
  | [], ledger => (ledger, [])
  | i :: rest, ledger =>
    let nextIndex := selected + i
    if numSentences ≤ nextIndex then (ledger, [])
    else if ledger.contains nextIndex then preloadLoop selected numSentences rest ledger
    else
      let r := preloadLoop selected numSentences rest (nextIndex :: ledger)
      (r.1, nextIndex :: r.2)

/-- The preload effect for a selection at `selected` over `numSentences`
sentences, starting from ledger `ledger`. -/
def preloadSentences (selected numSentences : Nat) (ledger : List Nat) :
    List Nat × List Nat :=
  preloadLoop selected numSentences (List.range' 1 PRELOAD_COUNT) ledger

/-- The `.catch` handler attached to a fire-and-forget warm-up call
(lines 175–179): it runs only when the promise *rejects*; then the index is
deleted from the ledger.  A promise that *fulfills* — even with
`success: false` — leaves the ledger unchanged, because no `.then` handler is
attached. -/
def preloadSettle (ledger : List Nat) (nextIndex : Nat) (rejected : Bool) : List Nat :=
  if rejected then ledger.filter (fun j => j != nextIndex) else ledger

/-!  Concrete environments used by witnesses and counterexamples. -/

/-- A concrete configuration. -/
def cfgEx : Config :=
  { voiceId := "v1", bucketName := "b", publicUrl := "https://cdn.example" }

/-- A world where the remote store is down (existence check and upload both
error) and the gateway succeeds with fixed bytes. -/
def wDown : World :=
  { head := fun _ => .error "transport", put := fun _ => .error "transport",
    speech := fun _ _ => .ok "QUJD" }

/-- A world where the remote store is down and the gateway fails with a
`SpeechifyError`. -/
def wFail : World :=
  { head := fun _ => .error "transport", put := fun _ => .error "transport",
    speech := fun _ _ => .error (.speechify 500 "boom") }

/-- A world where every key is present in the remote store. -/
def wHit : World :=
  { head := fun _ => .ok (), put := fun _ => .ok (),
    speech := fun _ _ => .ok "QUJD" }

/-!  Helper lemmas shared by several claim theorems. -/

/-- `Map.get` after `Map.set` at the same key returns the value just set. -/
theorem memGet_memSet (mc : MemCache) (k v : String) : memGet (memSet mc k v) k = some v := by
  simp [memGet, memSet, List.lookup]

/-- A key absent from an association list is found in the list extended with a
binding for it. -/
theorem lookup_append_singleton {α β : Type} [BEq α] [LawfulBEq α]
    (l : List (α × β)) (c : α) (t : β)
    (h : List.lookup c l = none) : List.lookup c (l ++ [(c, t)]) = some t := by
  induction l with
  | nil => simp [List.lookup]
  | cons p rest ih =>
    rw [List.cons_append]
    rcases p with ⟨k1, v1⟩
    cases hk : (c == k1) with
    | true => simp [List.lookup, hk] at h
    | false =>
      simp only [List.lookup, hk] at h ⊢
      exact ih h

/-- Claim C1: the at-most-one-session guarantee fails on the code.  After
`play("A"); play("B")` issued without awaiting, when A's `generateSpeech`
resolves first and then B's does, both audio elements end up playing
simultaneously: the continuation after `await generateSpeech` neither checks
the abort signal (which is never passed to the request) nor pauses an element
started in the meantime, so the playing set reaches size 2. -/
theorem two_sessions_reach_playing :
    (doResolve (doResolve (doPlay (doPlay initState "A") "B") 0 .url) 1 .url).playing
      = [(0, "A"), (1, "B")]
    ∧ (doResolve (doResolve (doPlay (doPlay initState "A") "B") 0 .url) 1 .url).playing.length
      = 2 := by
  decide

/-- Claim C2: supersession discard fails on the code.  With `play("A")` then
`play("B")` before A resolves, A's late resolution is *not* discarded: the
resolved artifact for "A" is played (it enters the playing set), and
`isLoading`/`isPlaying` are both changed by A's continuation — there is no
token check between `await generateSpeech` and `audio.play()`. -/
theorem stale_resolution_reaches_playing :
    (doPlay (doPlay initState "A") "B").pending = [(0, "A"), (1, "B")]
    ∧ (doPlay (doPlay initState "A") "B").isLoading = true
    ∧ (doPlay (doPlay initState "A") "B").playing = []
    ∧ (doResolve (doPlay (doPlay initState "A") "B") 0 .url).playing = [(0, "A")]
    ∧ (doResolve (doPlay (doPlay initState "A") "B") 0 .url).isPlaying = true
    ∧ (doResolve (doPlay (doPlay initState "A") "B") 0 .url).isLoading = false := by
  decide

/-- Claim C3: if the remote existence check and the upload both fail,
`generateSpeech` still succeeds via the gateway, returns the bytes, populates
the memory cache, and a second call with the same text is served from the
memory cache without a second gateway call. -/
theorem generateSpeech_fallback (md5hex : String → String) (cfg : Config) (w : World)
    (mc : MemCache) (text bytes e1 e2 : String)
    (hhead : w.head (generateCacheKey md5hex text cfg.voiceId) = .error e1)
    (hput : w.put (generateCacheKey md5hex text cfg.voiceId) = .error e2)
    (hmiss : memGet mc text = none)
    (hsp : w.speech text cfg.voiceId = .ok bytes) :
    (generateSpeech md5hex cfg w mc text).1.success = true
    ∧ (generateSpeech md5hex cfg w mc text).1.audioData = some bytes
    ∧ Event.gatewayCall text cfg.voiceId ∈ (generateSpeech md5hex cfg w mc text).2.2
    ∧ memGet (generateSpeech md5hex cfg w mc text).2.1 text = some bytes
    ∧ (generateSpeech md5hex cfg w (generateSpeech md5hex cfg w mc text).2.1 text).1.success = true
    ∧ (generateSpeech md5hex cfg w (generateSpeech md5hex cfg w mc text).2.1 text).1.audioData
        = some bytes
    ∧ (∀ t vo, Event.gatewayCall t vo ∉
        (generateSpeech md5hex cfg w (generateSpeech md5hex cfg w mc text).2.1 text).2.2) := by
  have hce : checkAudioExists w (generateCacheKey md5hex text cfg.voiceId) = false := by
    simp [checkAudioExists, hhead]
  have h1 : generateSpeech md5hex cfg w mc text =
      ({ success := true, audioData := some bytes },
        memSet mc text bytes,
        [.headCheck (generateCacheKey md5hex text cfg.voiceId),
         .gatewayCall text cfg.voiceId,
         .putUpload (generateCacheKey md5hex text cfg.voiceId)]) := by
    simp [generateSpeech, generateSpeechTry, uploadAudio, hce, hmiss, hsp, hput]
  have h2 : memGet (memSet mc text bytes) text = some bytes := memGet_memSet mc text bytes
  rw [h1]
  refine ⟨rfl, rfl, by simp, h2, ?_⟩
  have h3 : generateSpeech md5hex cfg w (memSet mc text bytes) text =
      ({ success := true, audioData := some bytes },
        memSet mc text bytes,
        [.headCheck (generateCacheKey md5hex text cfg.voiceId)]) := by
    simp [generateSpeech, generateSpeechTry, hce, h2]
  rw [h3]
  simp

/-- Witness for C3: in the store-down world, `generateSpeech` on "x" yields the
gateway bytes twice, the second time from the memory cache. -/
theorem generateSpeech_fallback_witness :
    wDown.head (generateCacheKey (fun s => s) "x" cfgEx.voiceId) = .error "transport"
    ∧ (generateSpeech (fun s => s) cfgEx wDown [] "x").1.audioData = some "QUJD"
    ∧ (generateSpeech (fun s => s) cfgEx wDown
        (generateSpeech (fun s => s) cfgEx wDown [] "x").2.1 "x").1.audioData = some "QUJD" :=
  ⟨rfl,
   (generateSpeech_fallback (fun s => s) cfgEx wDown [] "x" "QUJD" "transport" "transport"
      rfl rfl rfl rfl).2.1,
   (generateSpeech_fallback (fun s => s) cfgEx wDown [] "x" "QUJD" "transport" "transport"
      rfl rfl rfl rfl).2.2.2.2.2.1⟩

/-- Claim C4: `generateCacheKey` is a pure function — repeated calls agree; two
texts with the same normalization (trim + lowercase) give the same key; texts
with different normalizations (e.g. differing by internal punctuation) give
different keys provided the digest is injective on them. -/
theorem generateCacheKey_pure_deterministic (md5hex : String → String)
    (hinj : Function.Injective md5hex) (t1 t2 v : String) :
    generateCacheKey md5hex t1 v = generateCacheKey md5hex t1 v
    ∧ (jsToLowerCase (jsTrim t1) = jsToLowerCase (jsTrim t2) →
        generateCacheKey md5hex t1 v = generateCacheKey md5hex t2 v)
    ∧ (jsToLowerCase (jsTrim t1) ≠ jsToLowerCase (jsTrim t2) →
        generateCacheKey md5hex t1 v ≠ generateCacheKey md5hex t2 v) := by
  refine ⟨rfl, fun h => by simp [generateCacheKey, h], fun h heq => h (hinj ?_)⟩
  have hd := congrArg String.data heq
  simp only [generateCacheKey, String.data_append, List.append_assoc] at hd
  have hd2 := List.append_cancel_left hd
  have hd3 := List.append_cancel_left hd2
  have hd4 := List.append_cancel_right hd3
  exact String.ext hd4

/-- Witness for C4: case/whitespace variants agree on the key, a punctuation
change does not. -/
theorem generateCacheKey_pure_deterministic_witness :
    generateCacheKey (fun s => s) " Bonjour " "v1" = generateCacheKey (fun s => s) "bonjour" "v1"
    ∧ generateCacheKey (fun s => s) "bonjour!" "v1"
        ≠ generateCacheKey (fun s => s) "bonjour?" "v1" :=
  ⟨(generateCacheKey_pure_deterministic (fun s => s) (fun _ _ h => h)
      " Bonjour " "bonjour" "v1").2.1 (by decide),
   (generateCacheKey_pure_deterministic (fun s => s) (fun _ _ h => h)
      "bonjour!" "bonjour?" "v1").2.2 (by decide)⟩

/-- Claim C5: `generateSpeech` returns `success := false` exactly when the
remote existence check reports absence (a store failure is indistinguishable
from absence and likewise reports `false`), the memory cache misses, and the
gateway call fails; every success carries a URL or inline audio data, so
remote-store failures alone never fail the operation. -/
theorem generateSpeech_failure_iff (md5hex : String → String) (cfg : Config) (w : World)
    (mc : MemCache) (text : String) :
    ((generateSpeech md5hex cfg w mc text).1.success = false ↔
      (checkAudioExists w (generateCacheKey md5hex text cfg.voiceId) = false
        ∧ memGet mc text = none
        ∧ ∃ e, w.speech text cfg.voiceId = .error e))
    ∧ ((generateSpeech md5hex cfg w mc text).1.success = true →
        ((generateSpeech md5hex cfg w mc text).1.audioUrl.isSome
          ∨ (generateSpeech md5hex cfg w mc text).1.audioData.isSome)) := by
  cases hce : checkAudioExists w (generateCacheKey md5hex text cfg.voiceId) with
  | true => simp [generateSpeech, generateSpeechTry, hce]
  | false =>
    cases hmg : memGet mc text with
    | some c => simp [generateSpeech, generateSpeechTry, hce, hmg]
    | none =>
      cases hsp : w.speech text cfg.voiceId with
      | error e => cases e <;> simp [generateSpeech, generateSpeechTry, hce, hmg, hsp]
      | ok d =>
        cases hput : w.put (generateCacheKey md5hex text cfg.voiceId) with
        | ok u => simp [generateSpeech, generateSpeechTry, uploadAudio, hce, hmg, hsp, hput]
        | error e2 => simp [generateSpeech, generateSpeechTry, uploadAudio, hce, hmg, hsp, hput]

/-- Witness for C5: with the store down and the gateway failing, the operation
fails; the backward direction of the iff is applied at that concrete input. -/
theorem generateSpeech_failure_iff_witness :
    (generateSpeech (fun s => s) cfgEx wFail [] "x").1.success = false :=
  (generateSpeech_failure_iff (fun s => s) cfgEx wFail [] "x").1.mpr
    ⟨rfl, rfl, ⟨.speechify 500 "boom", rfl⟩⟩

/-- Claim C6: the claim fails on the code.  The preload effect marks
sentences 1–3 in the ledger and fires warm-up calls; when synthesis for
sentence 1 fails, `generateSpeech` *fulfills* with `success := false` — it
never rejects — so the attached `.catch` does not run (`rejected = false`),
the ledger keeps the entry, and a later pass over the same selection fires no
retry for it. -/
theorem preload_failed_entry_not_removed :
    (preloadSentences 0 5 []).2 = [1, 2, 3]
    ∧ 1 ∈ (preloadSentences 0 5 []).1
    ∧ (generateSpeech (fun s => s) cfgEx wFail [] "s1").1.success = false
    ∧ preloadSettle (preloadSentences 0 5 []).1 1 false = (preloadSentences 0 5 []).1
    ∧ 1 ∈ preloadSettle (preloadSentences 0 5 []).1 1 false
    ∧ (preloadSentences 0 5 (preloadSettle (preloadSentences 0 5 []).1 1 false)).2 = [] := by
  decide

/-- Claim C7 (amended): when a play attempt's resolve fails, `isLoading` is
reset to `false`, the abort ref is cleared (the attempt is re-triggerable), no
new audio element is created, and `isPlaying` is left exactly as it was before
the attempt — in particular it is `false` whenever no session was playing when
the play was issued. -/
theorem failed_resolve_resets_isLoading (s : CState) (text : String)
    (hfresh : List.lookup s.nextCont s.pending = none) :
    (doResolve (doPlay s text) s.nextCont .failure).isLoading = false
    ∧ (doResolve (doPlay s text) s.nextCont .failure).isPlaying = s.isPlaying
    ∧ (doResolve (doPlay s text) s.nextCont .failure).nextAudio = s.nextAudio
    ∧ (doResolve (doPlay s text) s.nextCont .failure).playing = (pauseCurrent s).playing
    ∧ (doResolve (doPlay s text) s.nextCont .failure).abortRef = none := by
  cases haud : s.audioRef <;>
    simp [doPlay, doResolve, pauseCurrent, removePending, haud,
      lookup_append_singleton _ _ _ hfresh]

/-- Witness for C7's amended theorem, at the idle initial state. -/
theorem failed_resolve_resets_isLoading_witness :
    List.lookup initState.nextCont initState.pending = none
    ∧ (doResolve (doPlay initState "x") initState.nextCont .failure).isLoading = false
    ∧ (doResolve (doPlay initState "x") initState.nextCont .failure).isPlaying
        = initState.isPlaying :=
  ⟨rfl, (failed_resolve_resets_isLoading initState "x" rfl).1,
    (failed_resolve_resets_isLoading initState "x" rfl).2.1⟩

/-- Counterexample for C7 as stated: issue `play("A")`, let it reach Playing,
issue `play("B")` (the prefix pauses A's element but never updates
`isPlaying`), and let B's resolve fail — the hook ends with `isLoading =
false` but `isPlaying = true` while no element is playing, contradicting
"isPlaying is false" after a failed attempt. -/
theorem failed_resolve_stale_isPlaying :
    (doResolve (doPlay (doResolve (doPlay initState "A") 0 .url) "B") 1 .failure).isLoading = false
    ∧ (doResolve (doPlay (doResolve (doPlay initState "A") 0 .url) "B") 1 .failure).isPlaying
        = true
    ∧ (doResolve (doPlay (doResolve (doPlay initState "A") 0 .url) "B") 1 .failure).playing
        = [] := by
  decide

/-- Claim C8: when the remote existence check succeeds, `generateSpeech`
returns success with the deterministically composed public URL
`{publicUrl}/{voiceId}/{digest of normalized text}.mp3`, leaves the memory
cache untouched, calls no gateway, and fetches no audio bytes. -/
theorem generateSpeech_exists_hit (md5hex : String → String) (cfg : Config) (w : World)
    (mc : MemCache) (text : String)
    (hok : w.head (generateCacheKey md5hex text cfg.voiceId) = .ok ()) :
    (generateSpeech md5hex cfg w mc text).1.success = true
    ∧ (generateSpeech md5hex cfg w mc text).1.audioUrl =
        some (cfg.publicUrl ++ "/"
          ++ (cfg.voiceId ++ "/" ++ md5hex (jsToLowerCase (jsTrim text)) ++ ".mp3"))
    ∧ (generateSpeech md5hex cfg w mc text).2.1 = mc
    ∧ (∀ t vo, Event.gatewayCall t vo ∉ (generateSpeech md5hex cfg w mc text).2.2)
    ∧ (∀ k, Event.getFetch k ∉ (generateSpeech md5hex cfg w mc text).2.2) := by
  have hce : checkAudioExists w (generateCacheKey md5hex text cfg.voiceId) = true := by
    simp [checkAudioExists, hok]
  have hurl : getAudioUrl cfg (generateCacheKey md5hex text cfg.voiceId) =
      cfg.publicUrl ++ "/"
        ++ (cfg.voiceId ++ "/" ++ md5hex (jsToLowerCase (jsTrim text)) ++ ".mp3") := rfl
  simp [generateSpeech, generateSpeechTry, hce, hurl]

/-- Witness for C8: "Bonjour" present in the store resolves to its public URL
with no gateway call. -/
theorem generateSpeech_exists_hit_witness :
    wHit.head (generateCacheKey (fun s => s) "Bonjour" cfgEx.voiceId) = .ok ()
    ∧ (generateSpeech (fun s => s) cfgEx wHit [] "Bonjour").1.audioUrl =
        some (cfgEx.publicUrl ++ "/"
          ++ (cfgEx.voiceId ++ "/" ++ (fun s => s) (jsToLowerCase (jsTrim "Bonjour")) ++ ".mp3"))
    ∧ (∀ t vo, Event.gatewayCall t vo ∉ (generateSpeech (fun s => s) cfgEx wHit [] "Bonjour").2.2) :=
  ⟨rfl,
   (generateSpeech_exists_hit (fun s => s) cfgEx wHit [] "Bonjour" rfl).2.1,
   (generateSpeech_exists_hit (fun s => s) cfgEx wHit [] "Bonjour" rfl).2.2.2.1⟩

/-- Claim C9: `generateSpeech` is total and never escapes with an exception:
every input and world yields a result object whose `success` flag is `true`
with no error message, or `false` with an error message — gateway and store
errors are converted, not thrown. -/
theorem generateSpeech_never_rejects (md5hex : String → String) (cfg : Config) (w : World)
    (mc : MemCache) (text : String) :
    ((generateSpeech md5hex cfg w mc text).1.success = true
      ∧ (generateSpeech md5hex cfg w mc text).1.error = none)
    ∨ ((generateSpeech md5hex cfg w mc text).1.success = false
      ∧ ∃ msg, (generateSpeech md5hex cfg w mc text).1.error = some msg) := by
  cases hce : checkAudioExists w (generateCacheKey md5hex text cfg.voiceId) with
  | true => simp [generateSpeech, generateSpeechTry, hce]
  | false =>
    cases hmg : memGet mc text with
    | some c => simp [generateSpeech, generateSpeechTry, hce, hmg]
    | none =>
      cases hsp : w.speech text cfg.voiceId with
      | error e => cases e <;> simp [generateSpeech, generateSpeechTry, hce, hmg, hsp]
      | ok d =>
        cases hput : w.put (generateCacheKey md5hex text cfg.voiceId) with
        | ok u => simp [generateSpeech, generateSpeechTry, uploadAudio, hce, hmg, hsp, hput]
        | error e2 => simp [generateSpeech, generateSpeechTry, uploadAudio, hce, hmg, hsp, hput]

/-- Claim C10: the memory cache is keyed by raw text while the remote key uses
the normalized text.  With the store down, two calls whose texts differ only
by case/whitespace share one remote `CacheKey` yet each call the gateway and
leave two separate memory-cache entries. -/
theorem memoryCache_raw_text_keyed (md5hex : String → String) (cfg : Config) (w : World)
    (t1 t2 b1 b2 e1 e2 : String)
    (hne : t1 ≠ t2)
    (hnorm : jsToLowerCase (jsTrim t1) = jsToLowerCase (jsTrim t2))
    (hhead : w.head (generateCacheKey md5hex t1 cfg.voiceId) = .error e1)
    (hput : w.put (generateCacheKey md5hex t1 cfg.voiceId) = .error e2)
    (hsp1 : w.speech t1 cfg.voiceId = .ok b1)
    (hsp2 : w.speech t2 cfg.voiceId = .ok b2) :
    generateCacheKey md5hex t1 cfg.voiceId = generateCacheKey md5hex t2 cfg.voiceId
    ∧ Event.gatewayCall t1 cfg.voiceId ∈ (generateSpeech md5hex cfg w [] t1).2.2
    ∧ Event.gatewayCall t2 cfg.voiceId ∈
        (generateSpeech md5hex cfg w (generateSpeech md5hex cfg w [] t1).2.1 t2).2.2
    ∧ memGet (generateSpeech md5hex cfg w (generateSpeech md5hex cfg w [] t1).2.1 t2).2.1 t1
        = some b1
    ∧ memGet (generateSpeech md5hex cfg w (generateSpeech md5hex cfg w [] t1).2.1 t2).2.1 t2
        = some b2 := by
  have hkey : generateCacheKey md5hex t1 cfg.voiceId = generateCacheKey md5hex t2 cfg.voiceId := by
    simp [generateCacheKey, hnorm]
  have hce : checkAudioExists w (generateCacheKey md5hex t1 cfg.voiceId) = false := by
    simp [checkAudioExists, hhead]
  have h1 : generateSpeech md5hex cfg w [] t1 =
      ({ success := true, audioData := some b1 },
        [(t1, b1)],
        [.headCheck (generateCacheKey md5hex t1 cfg.voiceId),
         .gatewayCall t1 cfg.voiceId,
         .putUpload (generateCacheKey md5hex t1 cfg.voiceId)]) := by
    simp [generateSpeech, generateSpeechTry, uploadAudio, hce, hsp1, hput, memGet, memSet,
      List.lookup]
  have hb : (t2 == t1) = false := beq_eq_false_iff_ne.mpr (Ne.symm hne)
  have hb2 : (t1 == t2) = false := beq_eq_false_iff_ne.mpr hne
  have hmiss2 : memGet [(t1, b1)] t2 = none := by
    simp [memGet, List.lookup, hb]
  have h2 : generateSpeech md5hex cfg w [(t1, b1)] t2 =
      ({ success := true, audioData := some b2 },
        [(t2, b2), (t1, b1)],
        [.headCheck (generateCacheKey md5hex t2 cfg.voiceId),
         .gatewayCall t2 cfg.voiceId,
         .putUpload (generateCacheKey md5hex t2 cfg.voiceId)]) := by
    have hce2 : checkAudioExists w (generateCacheKey md5hex t2 cfg.voiceId) = false := by
      rw [← hkey]; exact hce
    have hput2 : w.put (generateCacheKey md5hex t2 cfg.voiceId) = .error e2 := by
      rw [← hkey]; exact hput
    simp [generateSpeech, generateSpeechTry, uploadAudio, hce2, hmiss2, hsp2, hput2, memSet,
      List.eraseP, hb2]
  rw [h1]
  simp only [h2]
  refine ⟨hkey, by simp, by simp, ?_, ?_⟩
  · simp [memGet, List.lookup, hb2]
  · simp [memGet, List.lookup]

/-- Witness for C10: "A" and "a" share a remote key but get two memory-cache
entries, each filled by its own gateway call. -/
theorem memoryCache_raw_text_keyed_witness :
    generateCacheKey (fun s => s) "A" cfgEx.voiceId = generateCacheKey (fun s => s) "a" cfgEx.voiceId
    ∧ memGet (generateSpeech (fun s => s) cfgEx wDown
        (generateSpeech (fun s => s) cfgEx wDown [] "A").2.1 "a").2.1 "A" = some "QUJD"
    ∧ memGet (generateSpeech (fun s => s) cfgEx wDown
        (generateSpeech (fun s => s) cfgEx wDown [] "A").2.1 "a").2.1 "a" = some "QUJD" := by
  have h := memoryCache_raw_text_keyed (fun s => s) cfgEx wDown "A" "a" "QUJD" "QUJD"
    "transport" "transport" (by decide) (by decide) rfl rfl rfl rfl
  exact ⟨h.1, h.2.2.2.1, h.2.2.2.2⟩

end Lap
